import Mathlib

/-!
Verification of the power-management cycling script (`pm.py`).

The script repeatedly performs a power-management operation
(suspend, hibernate, poweroff, reboot), validating the duration of each
cycle, programming an RTC wake alarm, and surviving reboot/poweroff by
writing an autostart (continuation) file before issuing the power command.

This file gives a shallow embedding of the script's core logic:
* `MyArgumentParser.parse` — the post-argparse argument adjustment;
* `check_last_cycle_duration` / `suspendCommandCheck` — the duration gate;
* `WakeUpAlarm` — readback-check/retry logic and mismatch verification
  of the wake alarm, and the pre-flight hardware check;
* the orchestrator's event trace for a reboot/poweroff invocation
  (setup, one test cycle, teardown);
* the repetition-count loop of `run_multiple_test_cycles`.

Machine integers are modelled as `Int` (Python's `int` is unbounded),
timestamps and durations as whole seconds (`datetime` subtraction in the
script is only compared against whole-second `timedelta` bounds).
-/

/-- The parsed argument record (`args` object produced by
`MyArgumentParser.parse`).  `pm_operation` is one of `"suspend"`,
`"hibernate"`, `"poweroff"`, `"reboot"`. -/
structure Args where
  pm_operation : String
  repetitions : Int
  wakeup : Int
  min_pm_time : Int
  max_pm_time : Int
  pm_delay : Int
  hardware_delay : Int
  silent : Bool
  total : Int
  start : Int
  pm_timestamp : Int
  deriving DecidableEq, Repr

namespace MyArgumentParser

/-- Embedding of `MyArgumentParser.parse`.  The parameters are the values
argparse delivers (argparse defaults: `repetitions = 1`, `wakeup = 60`,
`min_pm_time = 0`, `max_pm_time = 300`, `pm_delay = 5`,
`hardware_delay = 30`, `total = 0`, `start = 0`, `pm_timestamp = 0`);
`now` is `int(time())`.  Python's `if not args.total` (resp. `start`,
`min_pm_time`) on an `int` tests equality with 0. -/
def parse (pm_operation : String)
    (repetitions wakeup min_pm_time max_pm_time pm_delay hardware_delay : Int)
    (silent : Bool) (total start pm_timestamp now : Int) : Args :=
  let total := if total = 0 then repetitions else total
  let start := if start = 0 then now else start
  let wakeup := if pm_operation = "reboot" then 0 else wakeup
  let min_pm_time := if pm_operation = "reboot" then 0 else min_pm_time
  let min_pm_time :=
    if min_pm_time = 0 then
      (if wakeup - 2 < 0 then 0 else wakeup - 2)
    else min_pm_time
  { pm_operation := pm_operation
    repetitions := repetitions
    wakeup := wakeup
    min_pm_time := min_pm_time
    max_pm_time := max_pm_time
    pm_delay := pm_delay
    hardware_delay := hardware_delay
    silent := silent
    total := total
    start := start
    pm_timestamp := pm_timestamp }

end MyArgumentParser

/-- Result of one duration-gate check
(`PowerManagementOperation.check_last_cycle_duration` and the inline
check after a blocking suspend/hibernate command).  The script raises
`TestFailed` with a "less than expected" message (`durationTooShort`) or
a "greater than expected" message (`durationTooLong`); otherwise it logs
the duration (`passed`).  `skipped` is the no-timestamp branch. -/
inductive CycleCheck where
  | skipped
  | durationTooShort
  | durationTooLong
  | passed (pm_time : Int)
  deriving DecidableEq, Repr

/-- Embedding of `PowerManagementOperation.check_last_cycle_duration`:
when a prior timestamp is present (nonzero, per Python truthiness),
the elapsed time `now - pm_timestamp` is compared against the bounds. -/
def check_last_cycle_duration (pm_timestamp min_pm_time max_pm_time now : Int) :
    CycleCheck :=
  if pm_timestamp ≠ 0 then
    let pm_time := now - pm_timestamp
    if pm_time < min_pm_time then .durationTooShort
    else if pm_time > max_pm_time then .durationTooLong
    else .passed pm_time
  else .skipped

/-- Embedding of the bound check applied in
`PowerManagementOperation.run_pm_command` to the directly measured
duration `command.time` of the blocking `pm-suspend`/`pm-hibernate`
command. -/
def suspendCommandCheck (command_time min_pm_time max_pm_time : Int) : CycleCheck :=
  if command_time < min_pm_time then .durationTooShort
  else if command_time > max_pm_time then .durationTooLong
  else .passed command_time

namespace WakeUpAlarm

/-- UTC-epoch wake candidate: `wakeup_time_utc = now + timeout`
(`WakeUpAlarm.set`). -/
def wakeup_time_utc (now timeout : Int) : Int := now + timeout

/-- Local-epoch wake candidate:
`wakeup_time_local = timegm(localtime()) + timeout` (`WakeUpAlarm.set`);
`timegm_localtime` stands for the `timegm(localtime())` clock read. -/
def wakeup_time_local (timegm_localtime timeout : Int) : Int :=
  timegm_localtime + timeout

/-- The mismatch test of `WakeUpAlarm.set`: the stored value is rejected
when it is more than 1 second away from the UTC candidate *and* more
than 1 second away from the local candidate. -/
def mismatch (utc loc stored : Int) : Bool :=
  ((utc - stored).natAbs > 1) && ((loc - stored).natAbs > 1)

/-- Exit behaviour of the mismatch branch of `WakeUpAlarm.set`:
`sys.exit(1)` when the mismatch test fires, otherwise control
continues (`none`). -/
def verifyExit (utc loc stored : Int) : Option Int :=
  if mismatch utc loc stored then some 1 else none

end WakeUpAlarm

/-- The readback check of `WakeUpAlarm.set`: `re.match('\d+', s)`
succeeds iff the string begins with (at least one) decimal digit. -/
def startsWithDigit (s : String) : Bool :=
  match s.data with
  | [] => false
  | c :: _ => c.isDigit

/-- Modelled from the spec's words, for comparison with the source's
readback check (`startsWithDigit`): a "plain non-negative integer"
string, i.e. nonempty and consisting only of decimal digits. -/
def spec_isPlainNonNegInt (s : String) : Bool :=
  !s.data.isEmpty && s.data.all Char.isDigit

/-- Outcome of the readback/retry logic of `WakeUpAlarm.set`: either a
stored string that passed the check (the flag records whether the
`"+timeout"` retry write happened first), or the fatal
"Invalid wakeup time format" abort (`sys.exit(1)`). -/
inductive AlarmReadOutcome where
  | ok (stored : String) (retried : Bool)
  | writeError
  deriving DecidableEq, Repr

/-- Embedding of the readback/retry logic of `WakeUpAlarm.set`:
`readback1` is the alarm-file content after the UTC-candidate write;
`readback2` is the content after the `"+timeout"` retry write (only
read when the first readback fails the check). -/
def alarmReadback (readback1 readback2 : String) : AlarmReadOutcome :=
  if startsWithDigit readback1 then .ok readback1 false
  else if startsWithDigit readback2 then .ok readback2 true
  else .writeError

/-- The sequence of strings `WakeUpAlarm.set` writes to the alarm file
up to the end of the readback/retry logic: `"0"` (clear), the
UTC-epoch candidate, and — only when the first readback fails the
check — the relative offset form `"+timeout"`. -/
def alarmWriteSequence (wakeup_time_utc timeout : Int) (readback1 : String) :
    List String :=
  ["0", toString wakeup_time_utc] ++
    (if startsWithDigit readback1 then [] else ["+" ++ toString timeout])

/-- `TestCancelled.RETURN_CODE` in the source. -/
def TestCancelled.RETURN_CODE : Int := 1

/-- `TestFailed.RETURN_CODE` in the source. -/
def TestFailed.RETURN_CODE : Int := 2

/-- Terminal outcome of `main`'s `try`/`except` around the operation:
normal completion, `TestCancelled`, or `TestFailed`. -/
inductive Outcome where
  | completed
  | cancelled
  | failed
  deriving DecidableEq, Repr

/-- The value `main` returns (and the process passes to `sys.exit`):
`exception.RETURN_CODE` for `TestCancelled`/`TestFailed`, 0 otherwise. -/
def mainReturn : Outcome → Int
  | .completed => 0
  | .cancelled => TestCancelled.RETURN_CODE
  | .failed => TestFailed.RETURN_CODE

/-- Result of the pre-flight hardware check `WakeUpAlarm.check`. -/
inductive WakeCheckResult where
  | ok
  | alarmFileMissing
  | rtcFileMissing
  | selfTestFailed
  deriving DecidableEq, Repr

/-- Embedding of `WakeUpAlarm.check`: the alarm register path and the
RTC status path must exist and the `fwts wakealarm` self-test must
report `PASSED` (its last output line). -/
def WakeUpAlarm.check (alarmFileExists rtcFileExists : Bool)
    (fwtsVerdict : String) : WakeCheckResult :=
  if !alarmFileExists then .alarmFileMissing
  else if !rtcFileExists then .rtcFileMissing
  else if fwtsVerdict ≠ "PASSED" then .selfTestFailed
  else .ok

/-- Exit behaviour of `WakeUpAlarm.check`: every failing branch calls
`sys.exit(1)`; on success control continues (`none`). -/
def WakeUpAlarm.checkExitCode : WakeCheckResult → Option Int
  | .ok => none
  | .alarmFileMissing => some 1
  | .rtcFileMissing => some 1
  | .selfTestFailed => some 1

/-- The two countdown events built in `CountdownDialog.__init__`:
`operationEvent` is the pre-operation delay (`pm_delay`, "Next {op} in
{time} seconds...") and `hardwareInfoEvent` the hardware-info-gathering
delay (`hardware_delay`). -/
inductive CDEvent where
  | operationEvent
  | hardwareInfoEvent
  deriving DecidableEq, Repr

namespace CountdownDialog

/-- The `self.events` list as built in `CountdownDialog.__init__`, with
`iterations = total - repetitions` and `iterations_count = total`. -/
def initEvents (iterations iterations_count : Int) : List CDEvent :=
  if iterations = 0 then [.operationEvent]
  else if iterations < iterations_count then [.operationEvent, .hardwareInfoEvent]
  else [.hardwareInfoEvent]

/-- On the first iteration `__init__` invokes the hardware-info
callback directly, with no countdown. -/
def immediateHardwareInfo (iterations : Int) : Bool := iterations = 0

/-- The order in which `schedule_next_event` presents the events:
Python's `list.pop()` removes the *last* element, so repeatedly popping
until the list is empty presents the events of `initEvents` in reverse
order. -/
def presentationOrder (iterations iterations_count : Int) : List CDEvent :=
  (initEvents iterations iterations_count).reverse

/-- `CountdownDialog.run` raises `TestCancelled` iff the dialog
response is not `RESPONSE_ACCEPT` (i.e. the user cancelled). -/
def runRaisesCancelled (responseIsAccept : Bool) : Bool := !responseIsAccept

end CountdownDialog

/-- The successive values of `args.repetitions` at the start of each
`run_one_test_cycle` call made by the loop of
`run_multiple_test_cycles` (`while repetitions >= 0: cycle; decrement`),
starting from initial value `r`. -/
def cycleStartValues (r : Int) : List Int :=
  if 0 ≤ r then r :: cycleStartValues (r - 1) else []
termination_by (r + 1).toNat
decreasing_by omega

/-- The value of `args.repetitions` when the loop of
`run_multiple_test_cycles` exits (no exception raised). -/
def finalRepetitions (r : Int) : Int :=
  if 0 ≤ r then finalRepetitions (r - 1) else r
termination_by (r + 1).toNat
decreasing_by omega

namespace AutoStartFile

/-- The repetitions value encoded into the autostart (continuation)
artifact by `AutoStartFile.write`: `self.args.repetitions - 1`
(pre-decremented). -/
def writeRepetitions (args : Args) : Int := args.repetitions - 1

end AutoStartFile

/-- Externally visible actions of a reboot/poweroff invocation of the
orchestrator, in program order. -/
inductive Event where
  | enableAutologin
  | enableSudoers
  | writeAutostart (repetitions : Int)
  | countdown
  | setWakeAlarm (seconds : Int)
  | powerCommand (pm_operation : String)
  | removeAutostart
  | disableSudoers
  | disableAutologin
  | summaryNotice
  deriving DecidableEq, Repr

/-- Whether an event is the issuance of the asynchronous power
command (`subprocess.Popen(command_str, shell=True)`). -/
def Event.isPowerCommand : Event → Bool
  | .powerCommand _ => true
  | _ => false

namespace PowerManagementOperation

/-- Events of `PowerManagementOperation.setup`: for reboot/poweroff,
enable autologin and sudoers on the first cycle
(`total == repetitions`), then always write the autostart file with the
pre-decremented repetitions value. -/
def setupEvents (args : Args) : List Event :=
  if args.pm_operation = "reboot" ∨ args.pm_operation = "poweroff" then
    (if args.total = args.repetitions then
      [.enableAutologin, .enableSudoers]
    else []) ++ [.writeAutostart (AutoStartFile.writeRepetitions args)]
  else []

/-- Events of `PowerManagementOperation.teardown`: for reboot/poweroff,
remove the autostart file and restore the sudoers and autologin
configuration. -/
def teardownEvents (args : Args) : List Event :=
  if args.pm_operation = "reboot" ∨ args.pm_operation = "poweroff" then
    [.removeAutostart, .disableSudoers, .disableAutologin]
  else []

/-- Events and outcome of `run_one_test_cycle` on the reboot/poweroff
path: check the last cycle's duration (a gate failure raises
`TestFailed`); then, if repetitions remain, run the cancellable
countdown, arm the wake alarm for non-reboot operations, and issue the
asynchronous power command; otherwise run the summary (countdown,
teardown, completion notice).  `cancelled` is whether the user cancels
the countdown. -/
def runOneTestCycleEvents (args : Args) (now : Int) (cancelled : Bool) :
    List Event × Outcome :=
  match check_last_cycle_duration args.pm_timestamp args.min_pm_time
      args.max_pm_time now with
  | .durationTooShort => ([], .failed)
  | .durationTooLong => ([], .failed)
  | _ =>
    if 0 < args.repetitions then
      if cancelled then ([.countdown], .cancelled)
      else
        (.countdown ::
          ((if args.pm_operation ≠ "reboot" then
              [Event.setWakeAlarm args.wakeup]
            else []) ++ [Event.powerCommand args.pm_operation]), .completed)
    else
      if cancelled then ([.countdown], .cancelled)
      else (.countdown :: (teardownEvents args ++ [Event.summaryNotice]), .completed)

/-- Event trace of one full reboot/poweroff invocation of `main`:
`setup` runs first, then `run` (one test cycle); `main`'s `except`
handler calls `teardown` on `TestCancelled`/`TestFailed`. -/
def invocationEvents (args : Args) (now : Int) (cancelled : Bool) :
    List Event × Outcome :=
  match runOneTestCycleEvents args now cancelled with
  | (cyc, Outcome.completed) => (setupEvents args ++ cyc, Outcome.completed)
  | (cyc, Outcome.cancelled) =>
      (setupEvents args ++ cyc ++ teardownEvents args, Outcome.cancelled)
  | (cyc, Outcome.failed) =>
      (setupEvents args ++ cyc ++ teardownEvents args, Outcome.failed)

end PowerManagementOperation

/- ======================== theorems ======================== -/

/-- C3: with a nonzero prior timestamp and a sane bound window, the gate
fails `durationTooShort` iff elapsed < min, fails `durationTooLong` iff
elapsed > max, and otherwise passes returning the elapsed duration; the
instances min = 60, max = 300 with elapsed 50 / 310 / 100 give
short / long / pass(100); and the suspend/hibernate check on the directly
measured command duration is the identical bound check. -/
theorem check_last_cycle_duration_gate
    (ts mn mx now : Int) (hts : ts ≠ 0) (hmn : mn ≤ mx) :
    (check_last_cycle_duration ts mn mx now = .durationTooShort ↔ now - ts < mn) ∧
    (check_last_cycle_duration ts mn mx now = .durationTooLong ↔ now - ts > mx) ∧
    (mn ≤ now - ts → now - ts ≤ mx →
      check_last_cycle_duration ts mn mx now = .passed (now - ts)) ∧
    check_last_cycle_duration 1000 60 300 1050 = .durationTooShort ∧
    check_last_cycle_duration 1000 60 300 1310 = .durationTooLong ∧
    check_last_cycle_duration 1000 60 300 1100 = .passed 100 ∧
    suspendCommandCheck (now - ts) mn mx = check_last_cycle_duration ts mn mx now := by
  refine ⟨?_, ?_, ?_, by decide, by decide, by decide, ?_⟩ <;>
    simp only [check_last_cycle_duration, suspendCommandCheck, if_pos hts, hts,
      ne_eq, not_false_iff, if_true]
  · constructor
    · intro h
      by_contra hc
      simp [hc] at h
      split at h <;> simp_all
    · intro h
      simp [h]
  · constructor
    · intro h
      by_contra hc
      split at h <;> simp_all
    · intro h
      have h1 : ¬ (now - ts < mn) := by omega
      simp [h1, h]
  · intro h1 h2
    have h3 : ¬ (now - ts < mn) := by omega
    have h4 : ¬ (now - ts > mx) := by omega
    simp [h3, h4]

/-- Witness for `check_last_cycle_duration_gate` at ts = 1000, min = 60,
max = 300, now = 1100. -/
theorem check_last_cycle_duration_gate_witness :
    (1000 : Int) ≠ 0 ∧ (60 : Int) ≤ 300 ∧
    (check_last_cycle_duration 1000 60 300 1100 = .durationTooShort ↔
      (1100 : Int) - 1000 < 60) :=
  ⟨by decide, by decide,
    (check_last_cycle_duration_gate 1000 60 300 1100 (by decide) (by decide)).1⟩

/-- C4: the wake-alarm verification in `WakeUpAlarm.set` accepts the
stored value iff it lies within 1 second of the UTC-epoch candidate
`now + timeout` or within 1 second of the local-epoch candidate, and
exits fatally (exit code 1) exactly when it is more than 1 second away
from both. -/
theorem wakeup_alarm_verification (now tg timeout v : Int) :
    (WakeUpAlarm.verifyExit (WakeUpAlarm.wakeup_time_utc now timeout)
        (WakeUpAlarm.wakeup_time_local tg timeout) v = none ↔
      ((now + timeout - v).natAbs ≤ 1 ∨ (tg + timeout - v).natAbs ≤ 1)) ∧
    (WakeUpAlarm.verifyExit (WakeUpAlarm.wakeup_time_utc now timeout)
        (WakeUpAlarm.wakeup_time_local tg timeout) v = some 1 ↔
      ((now + timeout - v).natAbs > 1 ∧ (tg + timeout - v).natAbs > 1)) := by
  unfold WakeUpAlarm.verifyExit WakeUpAlarm.mismatch WakeUpAlarm.wakeup_time_utc
    WakeUpAlarm.wakeup_time_local
  constructor
  · split <;> rename_i h <;> simp_all
    omega
  · split <;> rename_i h <;> simp_all

/-- C6: for `pm_operation = "reboot"`, whatever the `--wakeup` and
`--min-pm-time` inputs (and the remaining inputs), the parsed `wakeup`
and `min_pm_time` are both 0; the subsequent default derivation leaves
`min_pm_time` at 0. -/
theorem parse_reboot_forces_zero
    (repetitions wakeup min_pm_time max_pm_time pm_delay hardware_delay : Int)
    (silent : Bool) (total start pm_timestamp now : Int) :
    (MyArgumentParser.parse "reboot" repetitions wakeup min_pm_time max_pm_time
      pm_delay hardware_delay silent total start pm_timestamp now).wakeup = 0 ∧
    (MyArgumentParser.parse "reboot" repetitions wakeup min_pm_time max_pm_time
      pm_delay hardware_delay silent total start pm_timestamp now).min_pm_time = 0 := by
  simp [MyArgumentParser.parse]

/-- C9: for any non-reboot operation with the `--min-pm-time` flag left
at its argparse default 0, the parsed `min_pm_time` is
`max 0 (wakeup - 2)`. -/
theorem parse_min_pm_time_default
    (pm_operation : String)
    (repetitions wakeup max_pm_time pm_delay hardware_delay : Int)
    (silent : Bool) (total start pm_timestamp now : Int)
    (hop : pm_operation ≠ "reboot") :
    (MyArgumentParser.parse pm_operation repetitions wakeup 0 max_pm_time
      pm_delay hardware_delay silent total start pm_timestamp now).min_pm_time =
      max 0 (wakeup - 2) := by
  simp [MyArgumentParser.parse, hop]
  split <;> omega

/-- Witness for `parse_min_pm_time_default` at operation `"suspend"`
with the default wakeup of 60 seconds. -/
theorem parse_min_pm_time_default_witness :
    ("suspend" : String) ≠ "reboot" ∧
    (MyArgumentParser.parse "suspend" 3 60 0 300 5 30 false 0 0 0 1000).min_pm_time =
      max 0 (60 - 2) :=
  ⟨by decide,
    parse_min_pm_time_default "suspend" 3 60 300 5 30 false 0 0 0 1000 (by decide)⟩

/-- C10: the parser only ever sees the integer value of `--min-pm-time`,
so an explicit `--min-pm-time 0` is the same input as omitting the flag
(whose argparse default is 0) and triggers the default derivation: for
suspend with the default wakeup of 60 seconds the parsed minimum bound
is 58, not 0. -/
theorem parse_explicit_zero_min_pm_time :
    (MyArgumentParser.parse "suspend" 3 60 0 300 5 30 false 0 0 0 1000).min_pm_time = 58 ∧
    ((58 : Int) ≠ 0) := by
  constructor
  · simp [MyArgumentParser.parse]
  · decide

/-- C7 counterexample: the readback string "12a" is not a plain
non-negative integer, yet `WakeUpAlarm.set` performs no retry: its
check `re.match('\d+', ...)` only requires a leading digit, so "12a"
passes the check and is accepted as-is (no `"+N"` write, no abort). -/
theorem alarm_readback_not_plain_integer :
    spec_isPlainNonNegInt "12a" = false ∧
    alarmReadback "12a" "x" = .ok "12a" false ∧
    alarmWriteSequence 500 60 "12a" = ["0", "500"] := by
  decide

/-- C7 (amended): the integer check is that the read-back begins with a
decimal digit; the controller writes the relative offset form
`"+timeout"` exactly once, iff the first read-back fails that check,
and aborts fatally iff the second read-back also fails it; a first
read-back passing the check is accepted directly with no retry. -/
theorem alarm_readback_retry (u t : Int) (r1 r2 : String) :
    ((alarmWriteSequence u t r1).length =
      if startsWithDigit r1 then 2 else 3) ∧
    ((alarmWriteSequence u t r1).drop 2 =
      if startsWithDigit r1 then [] else ["+" ++ toString t]) ∧
    (alarmReadback r1 r2 = .writeError ↔
      startsWithDigit r1 = false ∧ startsWithDigit r2 = false) ∧
    (alarmReadback r1 r2 = .ok r1 false ↔ startsWithDigit r1 = true) := by
  by_cases h1 : startsWithDigit r1 <;> by_cases h2 : startsWithDigit r2 <;>
    simp [alarmWriteSequence, alarmReadback, h1, h2]

/-- C5 counterexample: a failed wake-alarm self-test (a hardware
precondition failure) makes `WakeUpAlarm.check` call `sys.exit(1)` —
exit code 1, not 2 as the claim states. -/
theorem wake_check_exit_code_one :
    WakeUpAlarm.check true true "FAILED" = .selfTestFailed ∧
    WakeUpAlarm.checkExitCode (WakeUpAlarm.check true true "FAILED") = some 1 ∧
    ((1 : Int) ≠ 2) := by
  decide

/-- C5 (amended): the process exit code is 0 on normal completion, 1 on
user cancellation and 2 for a gate/bounds failure (`TestFailed`), while
every hardware precondition failure (missing alarm/RTC interface file
or failed wake-alarm self-test) exits with code 1. -/
theorem exit_codes (b1 b2 : Bool) (v : String)
    (h : WakeUpAlarm.check b1 b2 v ≠ .ok) :
    mainReturn .completed = 0 ∧ mainReturn .cancelled = 1 ∧
    mainReturn .failed = 2 ∧
    WakeUpAlarm.checkExitCode (WakeUpAlarm.check b1 b2 v) = some 1 := by
  refine ⟨rfl, rfl, rfl, ?_⟩
  cases hc : WakeUpAlarm.check b1 b2 v
  case ok => exact absurd hc h
  all_goals rfl

/-- Witness for `exit_codes` at a missing alarm register file. -/
theorem exit_codes_witness :
    WakeUpAlarm.check false true "PASSED" ≠ .ok ∧
    (mainReturn .completed = 0 ∧ mainReturn .cancelled = 1 ∧
      mainReturn .failed = 2 ∧
      WakeUpAlarm.checkExitCode (WakeUpAlarm.check false true "PASSED") = some 1) :=
  ⟨by decide, exit_codes false true "PASSED" (by decide)⟩

/-- C8 counterexample: on cycle 2 of 3 (`iterations = 1`,
`iterations_count = 3`) the countdown presents the
hardware-info-gathering delay first, not the pre-operation delay:
`schedule_next_event` pops events from the end of the list
`[operation_event, hardware_info_event]`. -/
theorem countdown_order_counterexample :
    CountdownDialog.presentationOrder 1 3 =
      [.hardwareInfoEvent, .operationEvent] ∧
    (CountdownDialog.presentationOrder 1 3).head? ≠
      some CDEvent.operationEvent := by
  decide

theorem cycleStartValues_of_nonneg (r : Int) (h : 0 ≤ r) :
    cycleStartValues r = r :: cycleStartValues (r - 1) := by
  conv_lhs => rw [cycleStartValues.eq_def]
  simp [h]

theorem cycleStartValues_of_neg (r : Int) (h : r < 0) :
    cycleStartValues r = [] := by
  unfold cycleStartValues
  simp [not_le.mpr h]

theorem finalRepetitions_of_neg (r : Int) (h : r < 0) :
    finalRepetitions r = r := by
  unfold finalRepetitions
  simp [not_le.mpr h]

theorem finalRepetitions_nat (n : Nat) : finalRepetitions (n : Int) = -1 := by
  induction n with
  | zero =>
    simp only [Nat.cast_zero]
    rw [finalRepetitions.eq_def]
    rw [if_pos (le_refl (0 : Int))]
    rw [show ((0 : Int) - 1) = -1 by ring]
    exact finalRepetitions_of_neg (-1) (by norm_num)
  | succ k ih =>
    rw [finalRepetitions.eq_def]
    rw [if_pos (by positivity : (0 : Int) ≤ ((k + 1 : Nat) : Int))]
    rw [show ((k + 1 : Nat) : Int) - 1 = (k : Int) by push_cast; ring]
    exact ih

theorem finalRepetitions_eq_neg_one (r : Int) (h : 0 ≤ r) :
    finalRepetitions r = -1 := by
  have hr := finalRepetitions_nat r.toNat
  rwa [Int.toNat_of_nonneg h] at hr

theorem cycleStartValues_spec_nat (n : Nat) :
    (∀ v ∈ cycleStartValues (n : Int), 0 ≤ v) ∧
    List.Chain' (fun a b => b = a - 1) (cycleStartValues (n : Int)) ∧
    (cycleStartValues (n : Int)).head? = some (n : Int) ∧
    ((0 : Int) ∈ cycleStartValues (n : Int)) ∧
    (cycleStartValues (n : Int)).length = n + 1 := by
  induction n with
  | zero =>
    simp only [Nat.cast_zero]
    rw [cycleStartValues_of_nonneg 0 le_rfl, show ((0 : Int) - 1) = -1 by ring,
      cycleStartValues_of_neg (-1) (by norm_num)]
    simp
  | succ k ih =>
    obtain ⟨ih1, ih2, ih3, ih4, ih5⟩ := ih
    rw [cycleStartValues_of_nonneg ((k + 1 : Nat) : Int) (by positivity),
      show ((k + 1 : Nat) : Int) - 1 = (k : Int) by push_cast; ring]
    refine ⟨?_, ?_, rfl, List.mem_cons_of_mem _ ih4, ?_⟩
    · intro v hv
      rcases List.mem_cons.mp hv with hv | hv
      · subst hv
        positivity
      · exact ih1 v hv
    · refine List.chain'_cons'.mpr ⟨?_, ih2⟩
      intro b hb
      rw [ih3, Option.mem_def, Option.some_inj] at hb
      rw [← hb]
      push_cast
      ring
    · simp only [List.length_cons, ih5]

theorem cycleStartValues_spec (r : Int) (h : 0 ≤ r) :
    (∀ v ∈ cycleStartValues r, 0 ≤ v) ∧
    List.Chain' (fun a b => b = a - 1) (cycleStartValues r) ∧
    (cycleStartValues r).head? = some r ∧
    ((0 : Int) ∈ cycleStartValues r) ∧
    (cycleStartValues r).length = r.toNat + 1 := by
  have hr := cycleStartValues_spec_nat r.toNat
  rwa [Int.toNat_of_nonneg h] at hr

/-- C2 counterexample: `repetitions` does go negative.  The loop of
`run_multiple_test_cycles` (`while repetitions >= 0`) decrements once
more after the final summary cycle, leaving -1; and `setup` on a final
reboot/poweroff invocation (`repetitions = 0`) writes the continuation
artifact encoding `repetitions - 1 = -1`. -/
theorem repetitions_go_negative :
    finalRepetitions 1 = -1 ∧ ((-1 : Int) < 0) ∧
    AutoStartFile.writeRepetitions
      { pm_operation := "poweroff", repetitions := 0, wakeup := 60,
        min_pm_time := 58, max_pm_time := 300, pm_delay := 5,
        hardware_delay := 30, silent := false, total := 3, start := 100,
        pm_timestamp := 500 } = -1 :=
  ⟨finalRepetitions_eq_neg_one 1 (by norm_num), by norm_num, by decide⟩

/-- C2 (amended): starting from `repetitions = r ≥ 0`, the value of
`repetitions` at the start of each cycle is non-negative and decreases
by exactly 1 per completed cycle, from `r` down to 0 over exactly
`r + 1` cycles; the loop's final decrement after the summary cycle
leaves -1, and the continuation artifact encodes a non-negative value
whenever it is written with at least one repetition remaining
(encoding -1 only on a final invocation with `repetitions = 0`). -/
theorem repetitions_monotonic (r : Int) (a : Args) (h : 0 ≤ r)
    (ha : 1 ≤ a.repetitions) :
    (∀ v ∈ cycleStartValues r, 0 ≤ v) ∧
    List.Chain' (fun x y => y = x - 1) (cycleStartValues r) ∧
    (cycleStartValues r).head? = some r ∧
    ((0 : Int) ∈ cycleStartValues r) ∧
    (cycleStartValues r).length = r.toNat + 1 ∧
    finalRepetitions r = -1 ∧
    0 ≤ AutoStartFile.writeRepetitions a := by
  obtain ⟨h1, h2, h3, h4, h5⟩ := cycleStartValues_spec r h
  refine ⟨h1, h2, h3, h4, h5, finalRepetitions_eq_neg_one r h, ?_⟩
  unfold AutoStartFile.writeRepetitions
  omega

/-- Witness for `repetitions_monotonic` at r = 2 and a campaign state
with 2 repetitions remaining. -/
theorem repetitions_monotonic_witness :
    (0 : Int) ≤ 2 ∧
    (1 : Int) ≤
      ({ pm_operation := "poweroff", repetitions := 2, wakeup := 60,
         min_pm_time := 58, max_pm_time := 300, pm_delay := 5,
         hardware_delay := 30, silent := false, total := 3, start := 100,
         pm_timestamp := 500 } : Args).repetitions ∧
    ((∀ v ∈ cycleStartValues 2, 0 ≤ v) ∧
      List.Chain' (fun x y => y = x - 1) (cycleStartValues 2) ∧
      (cycleStartValues 2).head? = some 2 ∧
      ((0 : Int) ∈ cycleStartValues 2) ∧
      (cycleStartValues 2).length = (2 : Int).toNat + 1 ∧
      finalRepetitions 2 = -1 ∧
      0 ≤ AutoStartFile.writeRepetitions
        { pm_operation := "poweroff", repetitions := 2, wakeup := 60,
          min_pm_time := 58, max_pm_time := 300, pm_delay := 5,
          hardware_delay := 30, silent := false, total := 3, start := 100,
          pm_timestamp := 500 }) :=
  ⟨by norm_num, by decide,
    repetitions_monotonic 2
      { pm_operation := "poweroff", repetitions := 2, wakeup := 60,
        min_pm_time := 58, max_pm_time := 300, pm_delay := 5,
        hardware_delay := 30, silent := false, total := 3, start := 100,
        pm_timestamp := 500 } (by norm_num) (by decide)⟩

/-- C8 (amended): in a Cycling step after the first cycle
(`0 < iterations < total`) the countdown presents the
hardware-info-gathering delay first and the pre-operation delay second;
on the first cycle (`iterations = 0`) hardware information is gathered
immediately and only the pre-operation delay is presented; a dialog
response other than accept raises `TestCancelled`, and a cancellation
during the countdown gives the Cancelled outcome of the invocation. -/
theorem countdown_order (it total : Int) (args : Args) (now : Int)
    (h1 : 0 < it) (h2 : it < total)
    (hrep : 0 < args.repetitions)
    (hts : args.pm_timestamp = 0) :
    CountdownDialog.presentationOrder it total =
      [.hardwareInfoEvent, .operationEvent] ∧
    CountdownDialog.presentationOrder 0 total = [.operationEvent] ∧
    CountdownDialog.immediateHardwareInfo 0 = true ∧
    CountdownDialog.runRaisesCancelled false = true ∧
    (PowerManagementOperation.invocationEvents args now true).2 = .cancelled := by
  refine ⟨?_, ?_, rfl, rfl, ?_⟩
  · have hne : it ≠ 0 := by omega
    simp [CountdownDialog.presentationOrder, CountdownDialog.initEvents, hne, h2]
  · simp [CountdownDialog.presentationOrder, CountdownDialog.initEvents]
  · simp [PowerManagementOperation.invocationEvents,
      PowerManagementOperation.runOneTestCycleEvents,
      check_last_cycle_duration, hts, hrep]

/-- Witness for `countdown_order` at iterations 1 of 3, cancelling the
countdown of a poweroff invocation with 2 repetitions remaining. -/
theorem countdown_order_witness :
    (0 : Int) < 1 ∧ (1 : Int) < 3 ∧
    (CountdownDialog.presentationOrder 1 3 =
        [.hardwareInfoEvent, .operationEvent] ∧
      CountdownDialog.presentationOrder 0 3 = [.operationEvent] ∧
      CountdownDialog.immediateHardwareInfo 0 = true ∧
      CountdownDialog.runRaisesCancelled false = true ∧
      (PowerManagementOperation.invocationEvents
        { pm_operation := "poweroff", repetitions := 2, wakeup := 60,
          min_pm_time := 58, max_pm_time := 300, pm_delay := 5,
          hardware_delay := 30, silent := false, total := 3, start := 100,
          pm_timestamp := 0 } 700 true).2 = .cancelled) :=
  ⟨by norm_num, by norm_num,
    countdown_order 1 3
      { pm_operation := "poweroff", repetitions := 2, wakeup := 60,
        min_pm_time := 58, max_pm_time := 300, pm_delay := 5,
        hardware_delay := 30, silent := false, total := 3, start := 100,
        pm_timestamp := 0 } 700 (by norm_num) (by norm_num) (by decide) rfl⟩

/-- C1: for a reboot/poweroff invocation with repetitions remaining,
`setup` writes the continuation artifact encoding `repetitions - 1`;
the write lies in the power-command-free prefix of the invocation's
event trace (so it is persisted strictly before the asynchronous power
command, of which at most one is issued, and the power command is never
issued without it); and when the duration gate does not fail and the
user does not cancel, the power command is indeed issued. -/
theorem continuation_written_before_power_command (args : Args) (now : Int)
    (c : Bool)
    (hop : args.pm_operation = "reboot" ∨ args.pm_operation = "poweroff")
    (hrep : 0 < args.repetitions) :
    Event.writeAutostart (args.repetitions - 1) ∈
      (PowerManagementOperation.invocationEvents args now c).1.takeWhile
        (fun e => !e.isPowerCommand) ∧
    (PowerManagementOperation.invocationEvents args now c).1.countP
      (fun e => e.isPowerCommand) ≤ 1 ∧
    (c = false →
      check_last_cycle_duration args.pm_timestamp args.min_pm_time
          args.max_pm_time now ≠ .durationTooShort →
      check_last_cycle_duration args.pm_timestamp args.min_pm_time
          args.max_pm_time now ≠ .durationTooLong →
      Event.powerCommand args.pm_operation ∈
        (PowerManagementOperation.invocationEvents args now c).1) := by
  rcases hop with hop | hop <;>
    cases hchk : check_last_cycle_duration args.pm_timestamp args.min_pm_time
      args.max_pm_time now <;>
    by_cases htot : args.total = args.repetitions <;>
    cases c <;>
    simp [PowerManagementOperation.invocationEvents,
      PowerManagementOperation.runOneTestCycleEvents,
      PowerManagementOperation.setupEvents,
      PowerManagementOperation.teardownEvents,
      AutoStartFile.writeRepetitions, hop, htot, hchk, hrep,
      Event.isPowerCommand, List.takeWhile_cons, List.countP_cons,
      List.countP_append]

/-- Witness for `continuation_written_before_power_command`: a poweroff
invocation with 2 repetitions remaining out of 3, no prior timestamp,
not cancelled. -/
theorem continuation_written_before_power_command_witness :
    (({ pm_operation := "poweroff", repetitions := 2, wakeup := 60,
        min_pm_time := 58, max_pm_time := 300, pm_delay := 5,
        hardware_delay := 30, silent := false, total := 3, start := 100,
        pm_timestamp := 0 } : Args).pm_operation = "reboot" ∨
      ({ pm_operation := "poweroff", repetitions := 2, wakeup := 60,
         min_pm_time := 58, max_pm_time := 300, pm_delay := 5,
         hardware_delay := 30, silent := false, total := 3, start := 100,
         pm_timestamp := 0 } : Args).pm_operation = "poweroff") ∧
    (0 : Int) <
      ({ pm_operation := "poweroff", repetitions := 2, wakeup := 60,
         min_pm_time := 58, max_pm_time := 300, pm_delay := 5,
         hardware_delay := 30, silent := false, total := 3, start := 100,
         pm_timestamp := 0 } : Args).repetitions ∧
    Event.writeAutostart
        (({ pm_operation := "poweroff", repetitions := 2, wakeup := 60,
            min_pm_time := 58, max_pm_time := 300, pm_delay := 5,
            hardware_delay := 30, silent := false, total := 3, start := 100,
            pm_timestamp := 0 } : Args).repetitions - 1) ∈
      (PowerManagementOperation.invocationEvents
          { pm_operation := "poweroff", repetitions := 2, wakeup := 60,
            min_pm_time := 58, max_pm_time := 300, pm_delay := 5,
            hardware_delay := 30, silent := false, total := 3, start := 100,
            pm_timestamp := 0 } 700 false).1.takeWhile
        (fun e => !e.isPowerCommand) :=
  ⟨Or.inr rfl, by decide,
    (continuation_written_before_power_command
      { pm_operation := "poweroff", repetitions := 2, wakeup := 60,
        min_pm_time := 58, max_pm_time := 300, pm_delay := 5,
        hardware_delay := 30, silent := false, total := 3, start := 100,
        pm_timestamp := 0 } 700 false (Or.inr rfl) (by decide)).1⟩
